import Mathlib

/-!
# Verification of the check-in and voting eligibility engine

Shallow embedding of the core request-handling logic of `src/server.js`
(an Express app holding all state in the in-memory `eventData` object).
Each HTTP handler is translated into a pure Lean function from the
current `EventData` state and the decoded request fields to a result
together with the successor state.  JavaScript numbers that may be
absent or NaN-like (the `distance` request field) are modelled by
`JsNum`; JavaScript object maps (the `votes` object) are modelled by
association lists in insertion order with JS assignment semantics.
-/

deriving instance DecidableEq for Except

namespace Voting

/-- A JavaScript numeric request field: either an actual number or an
absent / non-numeric value (`undefined`, `NaN`, a non-coercible string),
for which every `<`/`>` comparison evaluates to `false` and
`Math.round` yields `NaN`. -/
inductive JsNum where
  | num (q : ℚ)
  | undef
deriving DecidableEq, Repr

/-- JS comparison `d > r` where `d` is a request field and `r` a number:
`undefined > r` and `NaN > r` are `false`. -/
def jsGtNum : JsNum → ℚ → Bool
  | JsNum.num q, r => decide (r < q)
  | JsNum.undef, _ => false

/-- JS `Math.round`: round half towards positive infinity;
`Math.round(undefined)` is `NaN` (modelled as `undef`). -/
def jsRound : JsNum → JsNum
  | JsNum.num q => JsNum.num ((Rat.floor (q + 1/2) : ℤ) : ℚ)
  | JsNum.undef => JsNum.undef

/-- `phone.toString().replace(/\D/g, '')`: strip every non-digit
character. -/
def normalizePhone (p : String) : String :=
  (p.toList.filter Char.isDigit).asString

/-- A roster member, as produced by `parseCSVFromBuffer` in
`src/server.js` (lines 69-76). -/
structure Member where
  name : String
  phone : String
  rollNumber : String
  email : String
  firstName : String
  lastName : String
deriving DecidableEq, Repr

/-- A ledger entry, as constructed by `POST /api/checkin`
(`src/server.js` lines 273-279). -/
structure Attendee where
  name : String
  phone : String
  checkInTime : String
  distance : JsNum
  fingerprint : String
deriving DecidableEq, Repr

/-- The whole in-memory session state: the `eventData` object of
`src/server.js` lines 16-30.  `votes` is the JS object mapping device
fingerprint to chosen option, kept as an association list in insertion
order. -/
structure EventData where
  eventName : String
  eventLocation : Option ℚ × Option ℚ
  radius : ℚ
  accessCode : String
  isEventActive : Bool
  attendees : List Attendee
  deviceFingerprints : List String
  pollQuestion : String
  pollOptions : List String
  isPollActive : Bool
  votes : List (String × String)
  approvedMembers : List Member
  requireLocation : Bool
deriving DecidableEq, Repr

/-- The initial value of `eventData` (`src/server.js` lines 16-30). -/
def initialState : EventData :=
  { eventName := ""
    eventLocation := (none, none)
    radius := 50
    accessCode := ""
    isEventActive := false
    attendees := []
    deviceFingerprints := []
    pollQuestion := ""
    pollOptions := []
    isPollActive := false
    votes := []
    approvedMembers := []
    requireLocation := true }

/-- Lookup in a JS object map (`votes[k]`): value of the first (unique)
entry with key `k`, or `undefined`. -/
def jsObjGet (o : List (String × String)) (k : String) : Option String :=
  (o.find? (fun p => p.1 == k)).map Prod.snd

/-- JS assignment `o[k] = v`: replace the value if the key exists,
otherwise append the new property in insertion order. -/
def jsObjSet (o : List (String × String)) (k v : String) : List (String × String) :=
  if o.any (fun p => p.1 == k) then
    o.map (fun p => if p.1 == k then (k, v) else p)
  else
    o ++ [(k, v)]

/-- JS truthiness of `votes[fingerprint]`: a present, non-empty string
is truthy; an absent value (`undefined`) or the empty string is falsy. -/
def jsTruthy : Option String → Bool
  | some s => s ≠ ""
  | none => false

/-- Rejection reasons of `POST /api/checkin`, one per early-return
branch of `src/server.js` lines 213-270, carrying the data interpolated
into the response message. -/
inductive CheckinReject where
  | noActiveEvent
  | invalidPhone
  | notOnRoster (normalizedPhone : String)
  | noRosterLoaded
  | deviceAlreadyCheckedIn
  | alreadyCheckedIn
  | outOfRange (roundedDistance : JsNum) (radius : ℚ)
deriving DecidableEq, Repr

/-- Rejection reasons of `POST /api/vote` (`src/server.js` lines
295-322). -/
inductive VoteReject where
  | noActivePoll
  | notCheckedIn
  | alreadyVoted
  | outOfRange (radius : ℚ)
deriving DecidableEq, Repr

/-- `POST /api/checkin` (`src/server.js` lines 210-289): the ordered
validation pipeline, returning the response and the successor state.
`now` stands for `new Date().toLocaleTimeString()`. -/
def evaluateCheckIn (s : EventData) (phone fingerprint : String)
    (distance : JsNum) (now : String) :
    Except CheckinReject Attendee × EventData :=
  if !s.isEventActive then
    (Except.error CheckinReject.noActiveEvent, s)
  else
    let normalizedPhone := normalizePhone phone
    if normalizedPhone.length ≠ 10 then
      (Except.error CheckinReject.invalidPhone, s)
    else if s.approvedMembers.length > 0 then
      match s.approvedMembers.find? (fun m => m.phone == normalizedPhone) with
      | none => (Except.error (CheckinReject.notOnRoster normalizedPhone), s)
      | some memberInfo =>
        if s.deviceFingerprints.contains fingerprint then
          (Except.error CheckinReject.deviceAlreadyCheckedIn, s)
        else if s.attendees.any (fun a => a.phone == normalizedPhone) then
          (Except.error CheckinReject.alreadyCheckedIn, s)
        else if s.requireLocation && jsGtNum distance s.radius then
          (Except.error (CheckinReject.outOfRange (jsRound distance) s.radius), s)
        else
          let attendee : Attendee :=
            { name := memberInfo.name
              phone := normalizedPhone
              checkInTime := now
              distance := jsRound distance
              fingerprint := fingerprint }
          (Except.ok attendee,
           { s with attendees := s.attendees ++ [attendee]
                    deviceFingerprints := s.deviceFingerprints ++ [fingerprint] })
    else
      (Except.error CheckinReject.noRosterLoaded, s)

/-- `POST /api/vote` (`src/server.js` lines 292-328).  Note the
already-voted guard is the JS truthiness test `if (eventData.votes[fingerprint])`. -/
def evaluateVote (s : EventData) (fingerprint optionChoice : String)
    (distance : JsNum) :
    Except VoteReject Unit × EventData :=
  if !s.isPollActive then
    (Except.error VoteReject.noActivePoll, s)
  else
    match s.attendees.find? (fun a => a.fingerprint == fingerprint) with
    | none => (Except.error VoteReject.notCheckedIn, s)
    | some _ =>
      if jsTruthy (jsObjGet s.votes fingerprint) then
        (Except.error VoteReject.alreadyVoted, s)
      else if s.requireLocation && jsGtNum distance s.radius then
        (Except.error (VoteReject.outOfRange s.radius), s)
      else
        (Except.ok (), { s with votes := jsObjSet s.votes fingerprint optionChoice })

/-- The `requireLocation` request field of `POST /api/admin/start-event`
may be absent; `eventData.requireLocation = requireLocation !== false`
defaults it to `true`. -/
structure StartEventConfig where
  eventName : String
  eventLocation : Option ℚ × Option ℚ
  radius : ℚ
  accessCode : String
  requireLocation : Option Bool
deriving DecidableEq, Repr

/-- `POST /api/admin/start-event` (`src/server.js` lines 130-143). -/
def startEvent (s : EventData) (c : StartEventConfig) : EventData :=
  { s with eventName := c.eventName
           eventLocation := c.eventLocation
           radius := c.radius
           accessCode := c.accessCode
           requireLocation := c.requireLocation ≠ some false
           isEventActive := true
           attendees := []
           deviceFingerprints := [] }

/-- `POST /api/admin/end-event` (`src/server.js` lines 146-149). -/
def endEvent (s : EventData) : EventData :=
  { s with isEventActive := false }

/-- `POST /api/admin/start-poll` (`src/server.js` lines 152-161). -/
def startPoll (s : EventData) (q : String) (opts : List String) : EventData :=
  { s with pollQuestion := q
           pollOptions := opts
           isPollActive := true
           votes := [] }

/-- `POST /api/admin/end-poll` (`src/server.js` lines 164-167). -/
def endPoll (s : EventData) : EventData :=
  { s with isPollActive := false }

/-- `POST /api/upload-roster` (`src/server.js` lines 91-122): a parsed
member list replaces the roster only when non-empty; an empty parse is
rejected with no state change. -/
def loadRoster (s : EventData) (members : List Member) : EventData :=
  if members.length = 0 then s
  else { s with approvedMembers := members }

/-- `GET /api/votes` (`src/server.js` lines 191-207): the tallied count
of option `o` — zero-initialised for every configured poll option, then
incremented per recorded vote whose value is a configured option
(`results.hasOwnProperty(vote)`). -/
def tallyCount (s : EventData) (o : String) : ℕ :=
  if s.pollOptions.contains o then (s.votes.map Prod.snd).count o else 0

/-- `GET /api/votes`: `totalVotes = Object.keys(eventData.votes).length`. -/
def totalVotes (s : EventData) : ℕ := s.votes.length

/-- One decoded request against the service, the operations the
eligibility engine's state can evolve by. -/
inductive Op where
  | startEvent (c : StartEventConfig)
  | endEvent
  | startPoll (q : String) (opts : List String)
  | endPoll
  | checkin (phone fingerprint : String) (distance : JsNum) (now : String)
  | vote (fingerprint optionChoice : String) (distance : JsNum)
  | loadRoster (members : List Member)
deriving DecidableEq, Repr

/-- The state transition of one operation (responses discarded). -/
def applyOp (s : EventData) : Op → EventData
  | Op.startEvent c => startEvent s c
  | Op.endEvent => endEvent s
  | Op.startPoll q opts => startPoll s q opts
  | Op.endPoll => endPoll s
  | Op.checkin p f d n => (evaluateCheckIn s p f d n).2
  | Op.vote f o d => (evaluateVote s f o d).2
  | Op.loadRoster ms => loadRoster s ms

/-- Run a sequence of operations from a state. -/
def run (s : EventData) : List Op → EventData
  | [] => s
  | op :: t => run (applyOp s op) t

/-- The invariant claimed by the spec: every fingerprint holding an
entry in the vote map is the fingerprint of some ledger entry. -/
def voteInv (s : EventData) : Bool :=
  s.votes.all (fun p => s.attendees.any (fun a => a.fingerprint == p.1))

/-! ## Helper lemmas -/

@[simp]
lemma jsGtNum_undef (r : ℚ) : jsGtNum JsNum.undef r = false := rfl

@[simp]
lemma jsRound_undef : jsRound JsNum.undef = JsNum.undef := rfl

/-- The attendee record constructed by a successful check-in
(`src/server.js` lines 273-279). -/
def mkAttendee (m : Member) (phone : String) (d : JsNum) (now fp : String) : Attendee :=
  { name := m.name
    phone := normalizePhone phone
    checkInTime := now
    distance := jsRound d
    fingerprint := fp }

/-- Every check-in evaluation either rejects and returns the state
untouched, or succeeds on a roster match and performs exactly the
ledger append and fingerprint insert. -/
lemma checkin_cases (s : EventData) (p f : String) (d : JsNum) (n : String) :
    (∃ r, evaluateCheckIn s p f d n = (Except.error r, s)) ∨
    (∃ m, s.approvedMembers.find? (fun mb => mb.phone == normalizePhone p) = some m ∧
       evaluateCheckIn s p f d n =
         (Except.ok (mkAttendee m p d n f),
          { s with attendees := s.attendees ++ [mkAttendee m p d n f]
                   deviceFingerprints := s.deviceFingerprints ++ [f] })) := by
  by_cases h1 : s.isEventActive = true
  case neg => exact Or.inl ⟨CheckinReject.noActiveEvent, by simp [evaluateCheckIn, h1]⟩
  by_cases h2 : (normalizePhone p).length = 10
  case neg => exact Or.inl ⟨CheckinReject.invalidPhone, by simp [evaluateCheckIn, h1, h2]⟩
  by_cases h3 : s.approvedMembers.length > 0
  case neg => exact Or.inl ⟨CheckinReject.noRosterLoaded, by simp [evaluateCheckIn, h1, h2, h3]⟩
  cases hfind : s.approvedMembers.find? (fun mb => mb.phone == normalizePhone p) with
  | none =>
    exact Or.inl ⟨CheckinReject.notOnRoster (normalizePhone p),
      by simp [evaluateCheckIn, h1, h2, h3, hfind]⟩
  | some m =>
    by_cases h4 : f ∈ s.deviceFingerprints
    case pos =>
      exact Or.inl ⟨CheckinReject.deviceAlreadyCheckedIn,
        by simp [evaluateCheckIn, h1, h2, h3, hfind, h4]⟩
    by_cases h5 : ∃ x ∈ s.attendees, x.phone = normalizePhone p
    case pos =>
      exact Or.inl ⟨CheckinReject.alreadyCheckedIn,
        by simp [evaluateCheckIn, h1, h2, h3, hfind, h4, h5]⟩
    by_cases h6 : s.requireLocation = true ∧ jsGtNum d s.radius = true
    case pos =>
      exact Or.inl ⟨CheckinReject.outOfRange (jsRound d) s.radius,
        by simp [evaluateCheckIn, h1, h2, h3, hfind, h4, h5, h6]⟩
    refine Or.inr ⟨m, ?_, ?_⟩
    · rfl
    · simp [evaluateCheckIn, mkAttendee, h1, h2, h3, hfind, h4, h5, h6]

/-- Every vote evaluation either rejects and returns the state
untouched, or succeeds for a checked-in fingerprint and performs
exactly the vote-map assignment. -/
lemma vote_cases (s : EventData) (f o : String) (d : JsNum) :
    (∃ r, evaluateVote s f o d = (Except.error r, s)) ∨
    ((s.attendees.find? (fun a => a.fingerprint == f)).isSome = true ∧
       evaluateVote s f o d = (Except.ok (), { s with votes := jsObjSet s.votes f o })) := by
  by_cases h1 : s.isPollActive = true
  case neg => exact Or.inl ⟨VoteReject.noActivePoll, by simp [evaluateVote, h1]⟩
  cases hfind : s.attendees.find? (fun a => a.fingerprint == f) with
  | none => exact Or.inl ⟨VoteReject.notCheckedIn, by simp [evaluateVote, h1, hfind]⟩
  | some a =>
    by_cases h2 : jsTruthy (jsObjGet s.votes f) = true
    case pos => exact Or.inl ⟨VoteReject.alreadyVoted, by simp [evaluateVote, h1, hfind, h2]⟩
    by_cases h3 : s.requireLocation = true ∧ jsGtNum d s.radius = true
    case pos =>
      exact Or.inl ⟨VoteReject.outOfRange s.radius, by simp [evaluateVote, h1, hfind, h2, h3]⟩
    exact Or.inr ⟨by simp [hfind], by simp [evaluateVote, h1, hfind, h2, h3]⟩

/-- The rejection reason of a failing check-in does not depend on the
current time. -/
lemma checkin_error_now (s : EventData) (p f : String) (d : JsNum) (n n' : String)
    (r : CheckinReject) (h : (evaluateCheckIn s p f d n).1 = Except.error r) :
    (evaluateCheckIn s p f d n').1 = Except.error r := by
  by_cases h1 : s.isEventActive = true
  case neg => simpa [evaluateCheckIn, h1] using h
  by_cases h2 : (normalizePhone p).length = 10
  case neg => simpa [evaluateCheckIn, h1, h2] using h
  by_cases h3 : s.approvedMembers.length > 0
  case neg => simpa [evaluateCheckIn, h1, h2, h3] using h
  cases hfind : s.approvedMembers.find? (fun mb => mb.phone == normalizePhone p) with
  | none => simpa [evaluateCheckIn, h1, h2, h3, hfind] using h
  | some m =>
    by_cases h4 : f ∈ s.deviceFingerprints
    case pos => simpa [evaluateCheckIn, h1, h2, h3, hfind, h4] using h
    by_cases h5 : ∃ x ∈ s.attendees, x.phone = normalizePhone p
    case pos => simpa [evaluateCheckIn, h1, h2, h3, hfind, h4, h5] using h
    by_cases h6 : s.requireLocation = true ∧ jsGtNum d s.radius = true
    case pos => simpa [evaluateCheckIn, h1, h2, h3, hfind, h4, h5, h6] using h
    simp [evaluateCheckIn, h1, h2, h3, hfind, h4, h5, h6] at h

/-- A check-in rejected as `OutOfRange` reaches the distance check with
`requireLocation` on, an exceeding distance, and the message payload
fixed to the rounded distance and the configured radius. -/
lemma checkin_outOfRange_inv (s : EventData) (p f : String) (d : JsNum) (n : String)
    (rd : JsNum) (rad : ℚ)
    (h : (evaluateCheckIn s p f d n).1 = Except.error (CheckinReject.outOfRange rd rad)) :
    s.requireLocation = true ∧ jsGtNum d s.radius = true ∧ rd = jsRound d ∧ rad = s.radius := by
  by_cases h1 : s.isEventActive = true
  case neg => simp [evaluateCheckIn, h1] at h
  by_cases h2 : (normalizePhone p).length = 10
  case neg => simp [evaluateCheckIn, h1, h2] at h
  by_cases h3 : s.approvedMembers.length > 0
  case neg => simp [evaluateCheckIn, h1, h2, h3] at h
  cases hfind : s.approvedMembers.find? (fun mb => mb.phone == normalizePhone p) with
  | none => simp [evaluateCheckIn, h1, h2, h3, hfind] at h
  | some m =>
    by_cases h4 : f ∈ s.deviceFingerprints
    case pos => simp [evaluateCheckIn, h1, h2, h3, hfind, h4] at h
    by_cases h5 : ∃ x ∈ s.attendees, x.phone = normalizePhone p
    case pos => simp [evaluateCheckIn, h1, h2, h3, hfind, h4, h5] at h
    by_cases h6 : s.requireLocation = true ∧ jsGtNum d s.radius = true
    case neg => simp [evaluateCheckIn, h1, h2, h3, hfind, h4, h5, h6] at h
    have := h
    simp [evaluateCheckIn, h1, h2, h3, hfind, h4, h5, h6] at this
    exact ⟨h6.1, h6.2, this.1.symm, this.2.symm⟩

/-- A vote rejected as `OutOfRange` reaches the distance check with
`requireLocation` on and an exceeding distance. -/
lemma vote_outOfRange_inv (s : EventData) (f o : String) (d : JsNum) (rad : ℚ)
    (h : (evaluateVote s f o d).1 = Except.error (VoteReject.outOfRange rad)) :
    s.requireLocation = true ∧ jsGtNum d s.radius = true ∧ rad = s.radius := by
  by_cases h1 : s.isPollActive = true
  case neg => simp [evaluateVote, h1] at h
  cases hfind : s.attendees.find? (fun a => a.fingerprint == f) with
  | none => simp [evaluateVote, h1, hfind] at h
  | some a =>
    by_cases h2 : jsTruthy (jsObjGet s.votes f) = true
    case pos => simp [evaluateVote, h1, hfind, h2] at h
    by_cases h3 : s.requireLocation = true ∧ jsGtNum d s.radius = true
    case neg => simp [evaluateVote, h1, hfind, h2, h3] at h
    have := h
    simp [evaluateVote, h1, hfind, h2, h3] at this
    exact ⟨h3.1, h3.2, this.symm⟩

/-- Does the operation hit the start-event endpoint? -/
def Op.isStart : Op → Bool
  | Op.startEvent _ => true
  | _ => false

/-- No start-event request occurs after any vote request. -/
def noStartAfterVote : List Op → Bool
  | [] => true
  | Op.vote _ _ _ :: rest => rest.all (fun op => !op.isStart) && noStartAfterVote rest
  | _ :: rest => noStartAfterVote rest

lemma voteInv_jsObjSet (s : EventData) (f o : String)
    (hatt : (s.attendees.find? (fun a => a.fingerprint == f)).isSome = true)
    (h : voteInv s = true) : voteInv { s with votes := jsObjSet s.votes f o } = true := by
  have hmem : ∃ a ∈ s.attendees, a.fingerprint = f := by
    obtain ⟨a, ha⟩ := Option.isSome_iff_exists.mp hatt
    exact ⟨a, List.mem_of_find?_eq_some ha, by simpa using List.find?_some ha⟩
  simp only [voteInv, List.all_eq_true] at h ⊢
  intro q hq
  simp only [jsObjSet] at hq
  split at hq
  · rcases List.mem_map.mp hq with ⟨q0, hq0, hq0q⟩
    by_cases hqf : q0.1 == f
    · rw [if_pos hqf] at hq0q
      subst hq0q
      simpa [List.any_eq_true] using hmem
    · rw [if_neg hqf] at hq0q
      subst hq0q
      exact h q0 hq0
  · rcases List.mem_append.mp hq with hq0 | hq0
    · exact h q hq0
    · have : q = (f, o) := by simpa using hq0
      subst this
      simpa [List.any_eq_true] using hmem

lemma voteInv_applyOp (s : EventData) (op : Op) (hop : op.isStart = false)
    (h : voteInv s = true) : voteInv (applyOp s op) = true := by
  cases op with
  | startEvent c => simp [Op.isStart] at hop
  | endEvent => simpa [applyOp, endEvent, voteInv] using h
  | startPoll q opts => simp [applyOp, startPoll, voteInv]
  | endPoll => simpa [applyOp, endPoll, voteInv] using h
  | loadRoster ms =>
    simp only [applyOp, loadRoster]
    split
    · exact h
    · simpa [voteInv] using h
  | checkin p f d n =>
    rcases checkin_cases s p f d n with ⟨r, hr⟩ | ⟨m, hfind, hsucc⟩
    · simpa [applyOp, hr] using h
    · simp only [applyOp, hsucc]
      simp only [voteInv, List.all_eq_true] at h ⊢
      intro q hq
      have := h q hq
      simp only [List.any_append]
      simp only [this, Bool.true_or]
  | vote f o d =>
    rcases vote_cases s f o d with ⟨r, hr⟩ | ⟨hatt, hsucc⟩
    · simpa [applyOp, hr] using h
    · simp only [applyOp, hsucc]
      exact voteInv_jsObjSet s f o hatt h

lemma votes_applyOp_of_not_vote (s : EventData) (op : Op)
    (hop : ∀ f o d, op ≠ Op.vote f o d) (hv : s.votes = []) : (applyOp s op).votes = [] := by
  cases op with
  | startEvent c => simpa [applyOp, startEvent] using hv
  | endEvent => simpa [applyOp, endEvent] using hv
  | startPoll q opts => simp [applyOp, startPoll]
  | endPoll => simpa [applyOp, endPoll] using hv
  | loadRoster ms =>
    simp only [applyOp, loadRoster]
    split
    · exact hv
    · simpa using hv
  | checkin p f d n =>
    rcases checkin_cases s p f d n with ⟨r, hr⟩ | ⟨m, hfind, hsucc⟩
    · simpa [applyOp, hr] using hv
    · simp only [applyOp, hsucc]
      simpa using hv
  | vote f o d => exact absurd rfl (hop f o d)

lemma noStartAfterVote_of_noStart (t : List Op)
    (h : t.all (fun op => !op.isStart) = true) : noStartAfterVote t = true := by
  induction t with
  | nil => rfl
  | cons op rest ih =>
    rw [List.all_cons, Bool.and_eq_true] at h
    cases op with
    | vote f o d =>
      simp only [noStartAfterVote, Bool.and_eq_true]
      exact ⟨h.2, ih h.2⟩
    | startEvent c => simp [Op.isStart] at h
    | endEvent => exact ih h.2
    | startPoll q opts => exact ih h.2
    | endPoll => exact ih h.2
    | checkin p f d n => exact ih h.2
    | loadRoster ms => exact ih h.2

lemma voteInv_run_aux (t : List Op) :
    ∀ s : EventData, voteInv s = true → noStartAfterVote t = true →
      (t.all (fun op => !op.isStart) = true ∨ s.votes = []) →
      voteInv (run s t) = true := by
  induction t with
  | nil => exact fun s hs _ _ => hs
  | cons op rest ih =>
    intro s hs hnsv hside
    cases op with
    | vote f o d =>
      simp only [noStartAfterVote, Bool.and_eq_true] at hnsv
      refine ih (applyOp s (Op.vote f o d))
        (voteInv_applyOp s (Op.vote f o d) rfl hs) hnsv.2 (Or.inl hnsv.1)
    | startEvent c =>
      have hv : s.votes = [] := by
        rcases hside with hall | hv
        · rw [List.all_cons, Bool.and_eq_true] at hall
          simpa [Op.isStart] using hall.1
        · exact hv
      have h1 : voteInv (applyOp s (Op.startEvent c)) = true := by
        simp [applyOp, startEvent, voteInv, hv]
      have h2 : (applyOp s (Op.startEvent c)).votes = [] := by
        simpa [applyOp, startEvent] using hv
      exact ih _ h1 hnsv (Or.inr h2)
    | endEvent =>
      rcases hside with hall | hv
      · rw [List.all_cons, Bool.and_eq_true] at hall
        exact ih _ (voteInv_applyOp s Op.endEvent rfl hs) hnsv (Or.inl hall.2)
      · exact ih _ (voteInv_applyOp s Op.endEvent rfl hs) hnsv
          (Or.inr (votes_applyOp_of_not_vote s Op.endEvent (by intro f o d; simp) hv))
    | startPoll q opts =>
      rcases hside with hall | hv
      · rw [List.all_cons, Bool.and_eq_true] at hall
        exact ih _ (voteInv_applyOp s (Op.startPoll q opts) rfl hs) hnsv (Or.inl hall.2)
      · exact ih _ (voteInv_applyOp s (Op.startPoll q opts) rfl hs) hnsv
          (Or.inr (votes_applyOp_of_not_vote s (Op.startPoll q opts) (by intro f o d; simp) hv))
    | endPoll =>
      rcases hside with hall | hv
      · rw [List.all_cons, Bool.and_eq_true] at hall
        exact ih _ (voteInv_applyOp s Op.endPoll rfl hs) hnsv (Or.inl hall.2)
      · exact ih _ (voteInv_applyOp s Op.endPoll rfl hs) hnsv
          (Or.inr (votes_applyOp_of_not_vote s Op.endPoll (by intro f o d; simp) hv))
    | checkin p f d n =>
      rcases hside with hall | hv
      · rw [List.all_cons, Bool.and_eq_true] at hall
        exact ih _ (voteInv_applyOp s (Op.checkin p f d n) rfl hs) hnsv (Or.inl hall.2)
      · exact ih _ (voteInv_applyOp s (Op.checkin p f d n) rfl hs) hnsv
          (Or.inr (votes_applyOp_of_not_vote s (Op.checkin p f d n) (by intro f o d; simp) hv))
    | loadRoster ms =>
      rcases hside with hall | hv
      · rw [List.all_cons, Bool.and_eq_true] at hall
        exact ih _ (voteInv_applyOp s (Op.loadRoster ms) rfl hs) hnsv (Or.inl hall.2)
      · exact ih _ (voteInv_applyOp s (Op.loadRoster ms) rfl hs) hnsv
          (Or.inr (votes_applyOp_of_not_vote s (Op.loadRoster ms) (by intro f o d; simp) hv))

/-- Counting each member of a duplicate-free list of keys in `vals`
sums to at most the length of `vals`. -/
lemma sum_count_nodup_le (ds vals : List String) (h : ds.Nodup) :
    (ds.map (fun o => vals.count o)).sum ≤ vals.length := by
  rw [← List.sum_toFinset _ h]
  have hle : ds.toFinset.sum (fun o => vals.count o) ≤
      vals.toFinset.sum (fun o => vals.count o) := by
    refine Finset.sum_le_sum_of_ne_zero ?_
    intro x _ hne
    rw [List.mem_toFinset]
    exact (List.count_pos_iff).mp (Nat.pos_of_ne_zero hne)
  calc ds.toFinset.sum (fun o => vals.count o)
      ≤ vals.toFinset.sum (fun o => vals.count o) := hle
    _ = vals.length := List.sum_toFinset_count_eq_length vals

lemma eq_false_iff_not {b : Bool} {P : Prop} (h : b = true ↔ P) : b = false ↔ ¬ P := by
  cases b <;> simp_all

/-! ## Concrete fixtures for witnesses and counterexamples -/

/-- A roster member with a normalized 10-digit phone. -/
def mAlice : Member :=
  { name := "Alice Smith", phone := "5551234567", rollNumber := "", email := ""
    firstName := "Alice", lastName := "Smith" }

/-- Start-event request with location verification switched off. -/
def cfgNoLoc : StartEventConfig :=
  { eventName := "Mixer", eventLocation := (none, none), radius := 50
    accessCode := "code", requireLocation := some false }

/-- Start-event request leaving `requireLocation` absent (defaults on). -/
def cfgLoc : StartEventConfig :=
  { eventName := "Mixer", eventLocation := (none, none), radius := 50
    accessCode := "code", requireLocation := none }

/-- Active event, empty roster. -/
def sNoRoster : EventData := run initialState [Op.startEvent cfgNoLoc]

/-- Active event with a loaded roster, location checks off. -/
def sRoster : EventData :=
  run initialState [Op.loadRoster [mAlice], Op.startEvent cfgNoLoc]

/-- Active event with a loaded roster, location checks on (radius 50). -/
def sRosterLoc : EventData :=
  run initialState [Op.loadRoster [mAlice], Op.startEvent cfgLoc]

/-- As `sRoster` after Alice checked in from device `fpA`. -/
def sCheckedIn : EventData :=
  run initialState
    [Op.loadRoster [mAlice], Op.startEvent cfgNoLoc,
     Op.checkin "5551234567" "fpA" JsNum.undef "t0"]

/-- As `sCheckedIn` with a live poll and no votes yet. -/
def sPoll : EventData :=
  run initialState
    [Op.loadRoster [mAlice], Op.startEvent cfgNoLoc,
     Op.checkin "5551234567" "fpA" JsNum.undef "t0",
     Op.startPoll "Color?" ["Red", "Blue"]]

/-- A full session: roster load, event start, check-in, poll start and
one vote for `Red` from device `fpA`. -/
def trGood : List Op :=
  [Op.loadRoster [mAlice], Op.startEvent cfgNoLoc,
   Op.checkin "5551234567" "fpA" JsNum.undef "t0",
   Op.startPoll "Color?" ["Red", "Blue"],
   Op.vote "fpA" "Red" JsNum.undef]

/-- State reached by `trGood`: one recorded vote `fpA ↦ Red`. -/
def sRedVote : EventData := run initialState trGood

/-- As `sRedVote` but the recorded option is the empty string. -/
def sEmptyVote : EventData :=
  run initialState
    [Op.loadRoster [mAlice], Op.startEvent cfgNoLoc,
     Op.checkin "5551234567" "fpA" JsNum.undef "t0",
     Op.startPoll "Color?" ["Red", "Blue"],
     Op.vote "fpA" "" JsNum.undef]

/-- State reached by `trGood` followed by a second start-event. -/
def sAfterRestart : EventData :=
  run initialState (trGood ++ [Op.startEvent cfgNoLoc])

/-- As `sCheckedIn` after the event was ended (ledger retained). -/
def sEnded : EventData :=
  run initialState
    [Op.loadRoster [mAlice], Op.startEvent cfgNoLoc,
     Op.checkin "5551234567" "fpA" JsNum.undef "t0", Op.endEvent]

/-! ## Claim theorems -/

/-- C1, counterexample: in a reachable state whose fingerprint set
contains `fpA`, a check-in reusing `fpA` with the malformed identity
`12` is rejected as invalid-phone (and an off-roster identity as
not-on-roster, and after `endEvent` as no-active-event), not as
device-already-checked-in, because the earlier pipeline checks run
first. -/
theorem C1_counterexample :
    sCheckedIn.deviceFingerprints.contains "fpA" = true ∧
    (evaluateCheckIn sCheckedIn "12" "fpA" JsNum.undef "t1").1 =
      Except.error CheckinReject.invalidPhone ∧
    (evaluateCheckIn sCheckedIn "12" "fpA" JsNum.undef "t1").1 ≠
      Except.error CheckinReject.deviceAlreadyCheckedIn ∧
    (evaluateCheckIn sCheckedIn "9998887777" "fpA" JsNum.undef "t1").1 =
      Except.error (CheckinReject.notOnRoster "9998887777") ∧
    sEnded.deviceFingerprints.contains "fpA" = true ∧
    (evaluateCheckIn sEnded "5551234567" "fpA" JsNum.undef "t1").1 =
      Except.error CheckinReject.noActiveEvent := by
  decide

/-- C1 (amended): for every check-in request whose fingerprint is
already present in the ledger's fingerprint set, made while the event
is active with an identity that normalizes to 10 digits and matches a
roster member, the result is `DeviceAlreadyCheckedIn` and the state is
unchanged — regardless of whether that identity already checked in.
(Malformed or off-roster identities are instead rejected by the
earlier phone checks; see the counterexample.) -/
theorem C1_device_already_checked_in (s : EventData) (phone fp : String)
    (d : JsNum) (now : String)
    (hact : s.isEventActive = true)
    (hlen : (normalizePhone phone).length = 10)
    (hmem : (s.approvedMembers.find? (fun m => m.phone == normalizePhone phone)).isSome = true)
    (hfp : s.deviceFingerprints.contains fp = true) :
    evaluateCheckIn s phone fp d now =
      (Except.error CheckinReject.deviceAlreadyCheckedIn, s) := by
  obtain ⟨m, hm⟩ := Option.isSome_iff_exists.mp hmem
  have hlen0 : s.approvedMembers.length > 0 := by
    cases hl : s.approvedMembers with
    | nil => rw [hl] at hm; simp at hm
    | cons a l => simp
  have hfp' : fp ∈ s.deviceFingerprints := by simpa using hfp
  simp [evaluateCheckIn, hact, hlen, hlen0, hm, hfp']

/-- Witness for C1: the already-checked-in identity `(555) 123-4567`
reusing the used device `fpA` gets `DeviceAlreadyCheckedIn`. -/
theorem C1_device_already_checked_in_witness :
    evaluateCheckIn sCheckedIn "(555) 123-4567" "fpA" JsNum.undef "t1" =
      (Except.error CheckinReject.deviceAlreadyCheckedIn, sCheckedIn) :=
  C1_device_already_checked_in sCheckedIn "(555) 123-4567" "fpA" JsNum.undef "t1"
    (by decide) (by decide) (by decide) (by decide)

/-- C2, counterexample: the already-voted guard is the JS truthiness
test `if (votes[fingerprint])`, so a recorded empty-string option does
not block a second vote: from a reachable state with `fpA ↦ ""`, a
later vote succeeds and overwrites the recorded option.  Moreover in a
reachable live-poll state with `fpA ↦ "Red"` recorded but the ledger
cleared by a restart, a later vote returns `NotCheckedIn`, not
`AlreadyVoted`. -/
theorem C2_counterexample :
    sEmptyVote.votes = [("fpA", "")] ∧
    (evaluateVote sEmptyVote "fpA" "Red" JsNum.undef).1 = Except.ok () ∧
    (evaluateVote sEmptyVote "fpA" "Red" JsNum.undef).2.votes = [("fpA", "Red")] ∧
    sAfterRestart.isPollActive = true ∧
    jsObjGet sAfterRestart.votes "fpA" = some "Red" ∧
    (evaluateVote sAfterRestart "fpA" "Blue" JsNum.undef).1 =
      Except.error VoteReject.notCheckedIn := by
  decide

/-- C2 (amended): once a NON-EMPTY option string has been recorded for
a fingerprint, any later vote attempt with the same fingerprint while
the poll is live (and the fingerprint still in the ledger) returns
`AlreadyVoted` and leaves the state — in particular the recorded
option — unchanged.  A recorded empty-string option is falsy and does
not block re-voting; see the counterexample. -/
theorem C2_write_once_nonempty (s : EventData) (fp opt v : String) (d : JsNum)
    (hpoll : s.isPollActive = true)
    (hatt : (s.attendees.find? (fun a => a.fingerprint == fp)).isSome = true)
    (hv : jsObjGet s.votes fp = some v) (hne : v ≠ "") :
    evaluateVote s fp opt d = (Except.error VoteReject.alreadyVoted, s) := by
  obtain ⟨a, ha⟩ := Option.isSome_iff_exists.mp hatt
  simp [evaluateVote, hpoll, ha, jsTruthy, hv, hne]

/-- Witness for C2: after `fpA` voted `Red`, voting `Blue` from `fpA`
is rejected with `AlreadyVoted` and nothing changes. -/
theorem C2_write_once_nonempty_witness :
    evaluateVote sRedVote "fpA" "Blue" JsNum.undef =
      (Except.error VoteReject.alreadyVoted, sRedVote) :=
  C2_write_once_nonempty sRedVote "fpA" "Blue" "Red" JsNum.undef
    (by decide) (by decide) (by decide) (by decide)

/-- C3, counterexample: `startEvent` clears the ledger and fingerprint
set but not the vote map, so a start-event issued after a vote reaches
a state where the voted fingerprint `fpA` has no ledger entry. -/
theorem C3_counterexample :
    sAfterRestart.votes = [("fpA", "Red")] ∧
    sAfterRestart.attendees = [] ∧
    voteInv sAfterRestart = false := by
  decide

/-- C3 (amended): in every state reachable from the initial state by a
sequence of operations in which no start-event request occurs after a
vote request, every fingerprint with an entry in the vote map is also
present in the attendance ledger.  (A start-event after votes were
recorded violates the invariant, because it clears the ledger but
retains the vote map; see the counterexample.) -/
theorem C3_vote_ledger_invariant (t : List Op) (h : noStartAfterVote t = true) :
    voteInv (run initialState t) = true :=
  voteInv_run_aux t initialState (by decide) h (Or.inr rfl)

/-- Witness for C3: a full session trace without a post-vote restart
satisfies the invariant. -/
theorem C3_vote_ledger_invariant_witness :
    noStartAfterVote trGood = true ∧ voteInv (run initialState trGood) = true :=
  ⟨by decide, C3_vote_ledger_invariant trGood (by decide)⟩

/-- C4: with the event active and an identity normalizing to 10
digits, an empty roster rejects every check-in with `NoRosterLoaded`
(fail closed) regardless of the other inputs, and a non-empty roster
with no member matching the normalized identity rejects with
`NotOnRoster`; the state is unchanged either way. -/
theorem C4_roster_gate (s : EventData) (phone fp : String) (d : JsNum) (now : String)
    (hact : s.isEventActive = true)
    (hlen : (normalizePhone phone).length = 10) :
    (s.approvedMembers = [] →
       evaluateCheckIn s phone fp d now = (Except.error CheckinReject.noRosterLoaded, s)) ∧
    (s.approvedMembers ≠ [] →
       (∀ m ∈ s.approvedMembers, m.phone ≠ normalizePhone phone) →
       evaluateCheckIn s phone fp d now =
         (Except.error (CheckinReject.notOnRoster (normalizePhone phone)), s)) := by
  constructor
  · intro hemp
    simp [evaluateCheckIn, hact, hlen, hemp]
  · intro hne hnm
    have hfind : s.approvedMembers.find? (fun m => m.phone == normalizePhone phone) = none := by
      rw [List.find?_eq_none]
      intro m hm
      simpa using hnm m hm
    have hlen0 : s.approvedMembers.length > 0 := by
      simpa [List.length_pos] using hne
    simp [evaluateCheckIn, hact, hlen, hlen0, hfind]

/-- Witness for C4: an empty roster fails closed; a roster without the
requested phone rejects with the normalized number in the payload. -/
theorem C4_roster_gate_witness :
    evaluateCheckIn sNoRoster "5551234567" "fpZ" JsNum.undef "t0" =
      (Except.error CheckinReject.noRosterLoaded, sNoRoster) ∧
    evaluateCheckIn sRoster "9998887777" "fpZ" JsNum.undef "t0" =
      (Except.error (CheckinReject.notOnRoster (normalizePhone "9998887777")), sRoster) :=
  ⟨(C4_roster_gate sNoRoster "5551234567" "fpZ" JsNum.undef "t0"
      (by decide) (by decide)).1 (by decide),
   (C4_roster_gate sRoster "9998887777" "fpZ" JsNum.undef "t0"
      (by decide) (by decide)).2 (by decide) (by decide)⟩

/-- C5: a rejected check-in or vote returns the session state
unchanged, and replaying the identical request against that unchanged
state (at any later time) yields the same rejection reason. -/
theorem C5_rejection_no_mutation (s : EventData) (phone fp opt : String) (d : JsNum)
    (now now2 : String) (r : CheckinReject) (rv : VoteReject) :
    ((evaluateCheckIn s phone fp d now).1 = Except.error r →
       (evaluateCheckIn s phone fp d now).2 = s ∧
       (evaluateCheckIn (evaluateCheckIn s phone fp d now).2 phone fp d now2).1 =
         Except.error r) ∧
    ((evaluateVote s fp opt d).1 = Except.error rv →
       (evaluateVote s fp opt d).2 = s ∧
       (evaluateVote (evaluateVote s fp opt d).2 fp opt d).1 = Except.error rv) := by
  constructor
  · intro h
    have hstate : (evaluateCheckIn s phone fp d now).2 = s := by
      rcases checkin_cases s phone fp d now with ⟨r0, hr⟩ | ⟨m, hfind, hsucc⟩
      · rw [hr]
      · rw [hsucc] at h
        simp at h
    refine ⟨hstate, ?_⟩
    rw [hstate]
    exact checkin_error_now s phone fp d now now2 r h
  · intro h
    have hstate : (evaluateVote s fp opt d).2 = s := by
      rcases vote_cases s fp opt d with ⟨r0, hr⟩ | ⟨hatt, hsucc⟩
      · rw [hr]
      · rw [hsucc] at h
        simp at h
    refine ⟨hstate, ?_⟩
    rw [hstate]
    exact h

/-- Witness for C5: a check-in and a vote against the inactive initial
state fail, mutate nothing, and fail identically on replay. -/
theorem C5_rejection_no_mutation_witness :
    ((evaluateCheckIn initialState "5551234567" "fpA" JsNum.undef "t0").2 = initialState ∧
     (evaluateCheckIn (evaluateCheckIn initialState "5551234567" "fpA" JsNum.undef "t0").2
        "5551234567" "fpA" JsNum.undef "t1").1 =
       Except.error CheckinReject.noActiveEvent) ∧
    ((evaluateVote initialState "fpA" "Red" JsNum.undef).2 = initialState ∧
     (evaluateVote (evaluateVote initialState "fpA" "Red" JsNum.undef).2
        "fpA" "Red" JsNum.undef).1 = Except.error VoteReject.noActivePoll) :=
  ⟨(C5_rejection_no_mutation initialState "5551234567" "fpA" "Red" JsNum.undef "t0" "t1"
      CheckinReject.noActiveEvent VoteReject.noActivePoll).1 (by decide),
   (C5_rejection_no_mutation initialState "5551234567" "fpA" "Red" JsNum.undef "t0" "t1"
      CheckinReject.noActiveEvent VoteReject.noActivePoll).2 (by decide)⟩

/-- C6: a check-in reaching the distance check with `requireLocation`
on is rejected with `OutOfRange` exactly when the supplied distance
exceeds the configured radius (a distance equal to the radius passes),
and the rejection payload is the rounded distance and the radius. -/
theorem C6_out_of_range (s : EventData) (phone fp : String) (d : JsNum) (now : String)
    (hact : s.isEventActive = true)
    (hlen : (normalizePhone phone).length = 10)
    (hmem : (s.approvedMembers.find? (fun m => m.phone == normalizePhone phone)).isSome = true)
    (hfp : s.deviceFingerprints.contains fp = false)
    (hph : s.attendees.any (fun a => a.phone == normalizePhone phone) = false)
    (hreq : s.requireLocation = true) :
    ((evaluateCheckIn s phone fp d now).1 =
        Except.error (CheckinReject.outOfRange (jsRound d) s.radius) ↔
      jsGtNum d s.radius = true) ∧
    (jsGtNum d s.radius = true →
       evaluateCheckIn s phone fp d now =
         (Except.error (CheckinReject.outOfRange (jsRound d) s.radius), s)) ∧
    (∀ q : ℚ, d = JsNum.num q → ¬ s.radius < q →
       ∃ a, (evaluateCheckIn s phone fp d now).1 = Except.ok a) := by
  obtain ⟨m, hm⟩ := Option.isSome_iff_exists.mp hmem
  have hlen0 : s.approvedMembers.length > 0 := by
    cases hl : s.approvedMembers with
    | nil => rw [hl] at hm; simp at hm
    | cons a l => simp
  have hfp' : fp ∉ s.deviceFingerprints := by simpa using hfp
  have hph' : ¬ ∃ x ∈ s.attendees, x.phone = normalizePhone phone := by
    rintro ⟨x, hx, hxp⟩
    have : s.attendees.any (fun a => a.phone == normalizePhone phone) = true :=
      List.any_eq_true.mpr ⟨x, hx, by simpa using hxp⟩
    rw [hph] at this
    exact Bool.false_ne_true this
  have hrej : jsGtNum d s.radius = true →
      evaluateCheckIn s phone fp d now =
        (Except.error (CheckinReject.outOfRange (jsRound d) s.radius), s) := by
    intro hgt
    simp [evaluateCheckIn, hact, hlen, hlen0, hm, hfp', hph', hreq, hgt]
  have hok : jsGtNum d s.radius = false →
      evaluateCheckIn s phone fp d now =
        (Except.ok (mkAttendee m phone d now fp),
         { s with attendees := s.attendees ++ [mkAttendee m phone d now fp]
                  deviceFingerprints := s.deviceFingerprints ++ [fp] }) := by
    intro hgt
    simp [evaluateCheckIn, mkAttendee, hact, hlen, hlen0, hm, hfp', hph', hreq, hgt]
  refine ⟨⟨?_, ?_⟩, hrej, ?_⟩
  · intro h
    exact (checkin_outOfRange_inv s phone fp d now _ _ h).2.1
  · intro hgt
    rw [hrej hgt]
  · intro q hdq hnot
    have hgt : jsGtNum d s.radius = false := by
      subst hdq
      simpa [jsGtNum] using hnot
    exact ⟨mkAttendee m phone d now fp, by rw [hok hgt]⟩

/-- Witness for C6: distance 80 against radius 50 with location checks
on is rejected with the rounded distance and the limit in the payload
(spec Scenario 4). -/
theorem C6_out_of_range_witness :
    jsGtNum (JsNum.num 80) sRosterLoc.radius = true ∧
    evaluateCheckIn sRosterLoc "5551234567" "fpA" (JsNum.num 80) "t0" =
      (Except.error (CheckinReject.outOfRange (jsRound (JsNum.num 80)) sRosterLoc.radius),
       sRosterLoc) :=
  ⟨by decide,
   (C6_out_of_range sRosterLoc "5551234567" "fpA" (JsNum.num 80) "t0"
      (by decide) (by decide) (by decide) (by decide) (by decide) (by decide)).2.1
     (by decide)⟩

/-- C7: `startEvent` replaces the event configuration wholesale
(name, location, radius, access code, location-requirement flag), sets
the event active, and clears the ledger and the fingerprint set —
whatever the prior state held. -/
theorem C7_start_event_reset (s : EventData) (c : StartEventConfig) :
    (startEvent s c).isEventActive = true ∧
    (startEvent s c).attendees = [] ∧
    (startEvent s c).deviceFingerprints = [] ∧
    (startEvent s c).eventName = c.eventName ∧
    (startEvent s c).eventLocation = c.eventLocation ∧
    (startEvent s c).radius = c.radius ∧
    (startEvent s c).accessCode = c.accessCode ∧
    ((startEvent s c).requireLocation = true ↔ c.requireLocation ≠ some false) := by
  simp [startEvent]

/-- C8: the tally zero-initialises every configured option and counts
only recorded votes whose value is a configured option, while
`totalVotes` is the size of the vote map; hence each option's tallied
count is at most `totalVotes`, and the tallied counts summed over the
distinct configured options are at most `totalVotes`. -/
theorem C8_tally_bounds (s : EventData) :
    (∀ o, tallyCount s o ≤ totalVotes s) ∧
    (s.pollOptions.dedup.map (tallyCount s)).sum ≤ totalVotes s := by
  constructor
  · intro o
    unfold tallyCount totalVotes
    split
    · calc (s.votes.map Prod.snd).count o ≤ (s.votes.map Prod.snd).length :=
          List.count_le_length _ _
        _ = s.votes.length := by simp
    · exact Nat.zero_le _
  · have hcongr : s.pollOptions.dedup.map (tallyCount s) =
        s.pollOptions.dedup.map (fun o => (s.votes.map Prod.snd).count o) := by
      apply List.map_congr_left
      intro o ho
      have hoMem : o ∈ s.pollOptions := List.mem_dedup.mp ho
      unfold tallyCount
      rw [if_pos (by simpa using hoMem)]
    rw [hcongr]
    have := sum_count_nodup_le s.pollOptions.dedup (s.votes.map Prod.snd)
      (List.nodup_dedup _)
    simpa [totalVotes] using this

/-- C9: a successful check-in appends exactly one attendee — carrying
the matched roster member's name, the normalized phone, the rounded
distance, the timestamp and the request's fingerprint — so the ledger
grows by exactly 1, and adds exactly that fingerprint to the
fingerprint set. -/
theorem C9_checkin_effect (s : EventData) (phone fp : String) (d : JsNum)
    (now : String) (a : Attendee)
    (h : (evaluateCheckIn s phone fp d now).1 = Except.ok a) :
    (evaluateCheckIn s phone fp d now).2.attendees = s.attendees ++ [a] ∧
    (evaluateCheckIn s phone fp d now).2.attendees.length = s.attendees.length + 1 ∧
    (evaluateCheckIn s phone fp d now).2.deviceFingerprints =
      s.deviceFingerprints ++ [fp] ∧
    a.phone = normalizePhone phone ∧
    a.fingerprint = fp ∧
    a.distance = jsRound d ∧
    a.checkInTime = now ∧
    (∃ m, s.approvedMembers.find? (fun mb => mb.phone == normalizePhone phone) = some m ∧
       a.name = m.name) := by
  rcases checkin_cases s phone fp d now with ⟨r, hr⟩ | ⟨m, hfind, hsucc⟩
  · rw [hr] at h
    simp at h
  · rw [hsucc] at h
    have ha : a = mkAttendee m phone d now fp := by
      simpa using h.symm
    subst ha
    rw [hsucc]
    exact ⟨rfl, by simp, rfl, rfl, rfl, rfl, rfl, ⟨m, hfind, rfl⟩⟩

/-- Witness for C9: Alice's successful check-in grows the ledger from
0 to 1 entries. -/
theorem C9_checkin_effect_witness :
    (evaluateCheckIn sRoster "5551234567" "fpA" JsNum.undef "t0").2.attendees.length =
      sRoster.attendees.length + 1 :=
  (C9_checkin_effect sRoster "5551234567" "fpA" JsNum.undef "t0"
     (mkAttendee mAlice "5551234567" JsNum.undef "t0" "fpA") (by decide)).2.1

/-- C10: a check-in or vote whose distance field is absent or
non-numeric is never rejected as `OutOfRange` (the JS comparison
`distance > radius` is false for `undefined`/`NaN`), even with
`requireLocation` on; if every other check passes the request
succeeds, and the check-in stores an attendee whose recorded distance
is not a number. -/
theorem C10_undefined_distance (s : EventData) (phone fp opt now : String) :
    (∀ rd rad, (evaluateCheckIn s phone fp JsNum.undef now).1 ≠
       Except.error (CheckinReject.outOfRange rd rad)) ∧
    (∀ rad, (evaluateVote s fp opt JsNum.undef).1 ≠
       Except.error (VoteReject.outOfRange rad)) ∧
    (∀ m, s.isEventActive = true → (normalizePhone phone).length = 10 →
       s.approvedMembers.find? (fun mb => mb.phone == normalizePhone phone) = some m →
       s.deviceFingerprints.contains fp = false →
       s.attendees.any (fun a => a.phone == normalizePhone phone) = false →
       (evaluateCheckIn s phone fp JsNum.undef now).1 =
         Except.ok (mkAttendee m phone JsNum.undef now fp) ∧
       (mkAttendee m phone JsNum.undef now fp).distance = JsNum.undef) ∧
    (s.isPollActive = true →
       (s.attendees.find? (fun a => a.fingerprint == fp)).isSome = true →
       jsTruthy (jsObjGet s.votes fp) = false →
       evaluateVote s fp opt JsNum.undef =
         (Except.ok (), { s with votes := jsObjSet s.votes fp opt })) := by
  refine ⟨?_, ?_, ?_, ?_⟩
  · intro rd rad h
    have := (checkin_outOfRange_inv s phone fp JsNum.undef now rd rad h).2.1
    simp at this
  · intro rad h
    have := (vote_outOfRange_inv s fp opt JsNum.undef rad h).2.1
    simp at this
  · intro m hact hlen hfind hfp hph
    have hlen0 : s.approvedMembers.length > 0 := by
      cases hl : s.approvedMembers with
      | nil => rw [hl] at hfind; simp at hfind
      | cons a l => simp
    have hfp' : fp ∉ s.deviceFingerprints := by simpa using hfp
    have hph' : ¬ ∃ x ∈ s.attendees, x.phone = normalizePhone phone := by
      rintro ⟨x, hx, hxp⟩
      have : s.attendees.any (fun a => a.phone == normalizePhone phone) = true :=
        List.any_eq_true.mpr ⟨x, hx, by simpa using hxp⟩
      rw [hph] at this
      exact Bool.false_ne_true this
    refine ⟨?_, rfl⟩
    simp [evaluateCheckIn, mkAttendee, hact, hlen, hlen0, hfind, hfp', hph']
  · intro hpoll hatt hnv
    obtain ⟨a, ha⟩ := Option.isSome_iff_exists.mp hatt
    simp [evaluateVote, hpoll, ha, hnv]

/-- Witness for C10: with no distance supplied, Alice's check-in
succeeds with a NaN stored distance, and a later vote succeeds despite
`requireLocation` defaulting semantics. -/
theorem C10_undefined_distance_witness :
    (evaluateCheckIn sRoster "5551234567" "fpA" JsNum.undef "t0").1 =
      Except.ok (mkAttendee mAlice "5551234567" JsNum.undef "t0" "fpA") ∧
    evaluateVote sPoll "fpA" "Red" JsNum.undef =
      (Except.ok (), { sPoll with votes := jsObjSet sPoll.votes "fpA" "Red" }) :=
  ⟨((C10_undefined_distance sRoster "5551234567" "fpA" "Red" "t0").2.2.1 mAlice
      (by decide) (by decide) (by decide) (by decide) (by decide)).1,
   (C10_undefined_distance sPoll "5551234567" "fpA" "Red" "t0").2.2.2
     (by decide) (by decide) (by decide)⟩

end Voting
